import Mathlib

/-!
Verification of the Heat resource-orchestration code against its design
specification.  The Python sources embedded here are
`heat/engine/resources/instance.py`, `heat/api/openstack/v1/stacks.py` and
`heat/api/openstack/v1/resources.py`.  Pure functions become Lean functions;
methods that mutate `self` become functions from a state to a new state;
calls into the Nova client are parametrised by an environment record holding
the responses the provider would give; Python exceptions become `Except`
results.
-/

mutual
/-- JSON-like values appearing in parsed templates and resource snippets.
The `obj` constructor carries its fields as a mutually defined list so that
decidable equality can be derived; `JFields` is isomorphic to
`List (String × JVal)`. -/
inductive JVal where
  | str (s : String)
  | num (n : Int)
  | obj (fields : JFields)
deriving DecidableEq, Repr

inductive JFields where
  | nil
  | cons (k : String) (v : JVal) (rest : JFields)
deriving DecidableEq, Repr
end

/-- A template snippet: an ordered mapping from keys to JSON values, as the
engine hands it to a resource (Python dict of a parsed template section). -/
abbrev Snippet := List (String × JVal)

/-- Dictionary lookup on a snippet, first binding wins (Python `d.get(k)`,
returning `none` where Python returns None for a missing key). -/
def lookupKey : Snippet → String → Option JVal
  | [], _ => none
  | (k2, v) :: rest, k => if k2 = k then some v else lookupKey rest k

/-- The set of keys present in either the current or the new snippet
(Python builds `template_keys` as the union of both key sets). -/
def templateKeys (old new : Snippet) : List String :=
  (old.map Prod.fst ++ new.map Prod.fst).dedup

/-- Keys whose values differ between the two snippets, by deep equality per
key; a key present on one side only also differs (`d.get` gives None). -/
def changedKeys (old new : Snippet) : List String :=
  (templateKeys old new).filter (fun k => lookupKey old k ≠ lookupKey new k)

/-- Modelled from the spec: `Resource.update_template_diff`, defined in
`heat/engine/resource.py` which is not among the given sources.  Spec 4.4:
the resolver computes the symmetric difference of old and new definitions by
deep equality per key; a difference within the declared update-allowed key
set is returned as the diff for an in-place update, and any changed key
outside that set forces REPLACE - surfaced to `handle_update` as the
NotImplementedError it catches (modelled as `Except.error`). -/
def update_template_diff (update_allowed : List String) (old new : Snippet) :
    Except Unit (List (String × Option JVal)) :=
  if (changedKeys old new).all (fun k => update_allowed.contains k) then
    .ok ((changedKeys old new).map (fun k => (k, lookupKey new k)))
  else
    .error ()

/-- Outcomes `Instance.handle_update` can return (`self.UPDATE_COMPLETE`,
`self.UPDATE_REPLACE`). -/
inductive UpdateStatus where
  | UPDATE_COMPLETE
  | UPDATE_REPLACE
deriving DecidableEq, Repr

/-- The mutable fields of an `Instance` resource that the embedded methods
read or write, together with the properties the methods consult.  `t` is the
stored template snippet `self.t`; `resource_id` is the nullable provider
handle; `ipaddress` and `metadata` are the cached fields; the remaining
fields are the validated properties used by the handlers. -/
structure InstanceState where
  name : String
  t : Snippet
  metadata : JVal
  resource_id : Option String
  ipaddress : Option String
  availabilityZone : String
  keyName : String
  imageId : String
  instanceType : String
deriving DecidableEq, Repr

/-- Declared update-allowed template keys of `Instance`
(`update_allowed_keys = ('Metadata',)`). -/
def update_allowed_keys : List String := ["Metadata"]

/-- The `for k in tmpl_diff` loop body of `Instance.handle_update`: `status`
starts as UPDATE_REPLACE; a "Metadata" key stores the new metadata
(`json_snippet.get('Metadata', \x7b\x7d)`) and flips `status` to
UPDATE_COMPLETE; any other key returns UPDATE_REPLACE at once, keeping the
mutations made so far. -/
def handle_update_loop (inst : InstanceState) (json_snippet : Snippet)
    (status : UpdateStatus) :
    List (String × Option JVal) → InstanceState × UpdateStatus
  | [] => (inst, status)
  | (k, _) :: rest =>
    if k = "Metadata" then
      handle_update_loop
        { inst with metadata := (lookupKey json_snippet "Metadata").getD (.obj .nil) }
        json_snippet .UPDATE_COMPLETE rest
    else
      (inst, .UPDATE_REPLACE)

/-- `Instance.handle_update`: computes the template diff, catching
NotImplementedError as UPDATE_REPLACE, then folds the loop over the diff
keys with initial status UPDATE_REPLACE. -/
def handle_update (inst : InstanceState) (json_snippet : Snippet) :
    InstanceState × UpdateStatus :=
  match update_template_diff update_allowed_keys inst.t json_snippet with
  | .error _ => (inst, .UPDATE_REPLACE)
  | .ok tmpl_diff => handle_update_loop inst json_snippet .UPDATE_REPLACE tmpl_diff

example :
    handle_update
      { name := "i", t := [("Metadata", .num 1)], metadata := .num 0,
        resource_id := none, ipaddress := none, availabilityZone := "nova",
        keyName := "k", imageId := "img", instanceType := "m1" }
      [("Metadata", .num 1)] =
    ({ name := "i", t := [("Metadata", .num 1)], metadata := .num 0,
       resource_id := none, ipaddress := none, availabilityZone := "nova",
       keyName := "k", imageId := "img", instanceType := "m1" },
     .UPDATE_REPLACE) := by decide

example :
    (handle_update
      { name := "i", t := [("Metadata", .num 1)], metadata := .num 0,
        resource_id := none, ipaddress := none, availabilityZone := "nova",
        keyName := "k", imageId := "img", instanceType := "m1" }
      [("Metadata", .num 2)]).2 = .UPDATE_COMPLETE := by decide

/-- The view of a Nova server object that the embedded handlers consult.
`finalStatus` is the first status other than "BUILD" that the
`while server.status == 'BUILD'` poll loop in `handle_create` observes - the
loop has no other effect on the embedded state, so it is represented by its
exit observation.  `networks` is the dict of network name to address list. -/
structure NovaServer where
  id : String
  finalStatus : String
  networks : List (String × List String)
deriving DecidableEq, Repr

/-- Responses the Nova client gives during one `handle_create` run:
the registered keypair names (`keypairs.list`), the image and flavor
catalogues as (name, id) pairs (`images.list`, `flavors.list`), and the
outcome of `servers.create` (error = the exception it raised). -/
structure CreateEnv where
  keypairs : List String
  images : List (String × String)
  flavors : List (String × String)
  createResult : Except String NovaServer

/-- Exceptions `handle_create` can propagate. `flavorUnbound` is the NameError
from referencing `flavor_id` when no flavor in the catalogue matched;
`indexError` comes from `_set_ipaddress` on an empty address list. -/
inductive CreateErr where
  | userKeyPairMissing (key_name : String)
  | imageNotFound (image_name : String)
  | flavorUnbound
  | novaError (msg : String)
  | indexError
  | unexpectedStatus (name status : String)
deriving DecidableEq, Repr

/-- Catalogue lookup as the Python loops perform it: iterate the whole list
and keep the id of the LAST entry whose name matches (no break). -/
def lastMatch (xs : List (String × String)) (target : String) : Option String :=
  xs.foldl (fun acc p => if p.1 = target then some p.2 else acc) none

/-- `Instance._set_ipaddress`: record the first address of the first network,
stopping after one iteration; an empty networks dict leaves the field
untouched, and an empty address list on the first network raises IndexError
(`networks[n][0]`). -/
def _set_ipaddress (inst : InstanceState) (networks : List (String × List String)) :
    Except Unit InstanceState :=
  match networks with
  | [] => .ok inst
  | (_, addrs) :: _ =>
    match addrs with
    | [] => .error ()
    | ip :: _ => .ok { inst with ipaddress := some ip }

/-- `Instance.handle_create`, embedded with the provider responses supplied by
`env`.  The userdata/tags/scheduler-hint assembly is pure local computation
folded into the abstract `createResult`; the keypair, image and flavor
checks and the try/finally around `servers.create` are kept exactly: the
`finally` clause stores `server.id` as the resource id whenever
`servers.create` returned a server, before the status wait runs, so every
later exception leaves the id recorded. -/
def handle_create (inst : InstanceState) (env : CreateEnv) :
    InstanceState × Option CreateErr :=
  if ¬ env.keypairs.contains inst.keyName then
    (inst, some (.userKeyPairMissing inst.keyName))
  else
    match lastMatch env.images inst.imageId with
    | none => (inst, some (.imageNotFound inst.imageId))
    | some _image_id =>
      match lastMatch env.flavors inst.instanceType with
      | none => (inst, some .flavorUnbound)
      | some _flavor_id =>
        match env.createResult with
        | .error e => (inst, some (.novaError e))
        | .ok server =>
          let inst := { inst with resource_id := some server.id }
          if server.finalStatus = "ACTIVE" then
            match _set_ipaddress inst server.networks with
            | .ok inst2 => (inst2, none)
            | .error _ => (inst, some .indexError)
          else
            (inst, some (.unexpectedStatus inst.name server.finalStatus))

/-- Calls the embedded methods make against the Nova client. -/
inductive NovaCall where
  | getServer (id : String)
  | deleteServer (id : String)
  | listKeypairs
deriving DecidableEq, Repr

/-- Responses the Nova client gives during one `handle_delete` run:
whether the initial `servers.get` finds the server (error = NotFound), and
how many `server.get()` calls inside the poll loop still find the server
before one raises NotFound. -/
structure DeleteEnv where
  getResult : Except Unit Unit
  pollsWhilePresent : Nat
deriving Repr

/-- The `while True` poll loop of `handle_delete` as the list of `get` calls
it makes: `n` calls that still find the server, then the one that raises
NotFound and breaks. -/
def poll_delete (rid : String) : Nat → List NovaCall
  | 0 => [.getServer rid]
  | n + 1 => .getServer rid :: poll_delete rid n

/-- `Instance.handle_delete`: return immediately when `resource_id` is None;
otherwise get the server (NotFound passes straight through), else request
deletion and poll until the server is gone; in either non-None case finish
by clearing `resource_id`.  Returns the new state and the list of Nova calls
made, in order. -/
def handle_delete (inst : InstanceState) (env : DeleteEnv) :
    InstanceState × List NovaCall :=
  match inst.resource_id with
  | none => (inst, [])
  | some rid =>
    match env.getResult with
    | .error _ => ({ inst with resource_id := none }, [.getServer rid])
    | .ok _ =>
      ({ inst with resource_id := none },
       .getServer rid :: .deleteServer rid :: poll_delete rid env.pollsWhilePresent)

/-- `Instance.validate`, embedded with the result of the superclass schema
validation and of the `self.properties['KeyName']` access supplied as
arguments.  `superResult` is Modelled from the spec: `Resource.validate` in
`heat/engine/resource.py` is not among the given sources; per spec 4.1 it
returns an error naming the offending key when the properties fail the
schema and nothing otherwise (a falsy result in Python, modelled as `none`).
`keyNameAccess` is the property lookup, whose ValueError branch returns with
no error.  The keypair check reads `keypairs.list` from `env`; the returned
list records the Nova calls made. -/
def validate (superResult : Option String) (keyNameAccess : Except Unit String)
    (keypairs : List String) : Option String × List NovaCall :=
  match superResult with
  | some res => (some res, [])
  | none =>
    match keyNameAccess with
    | .error _ => (none, [])
    | .ok key_name =>
      if keypairs.contains key_name then
        (none, [.listKeypairs])
      else
        (some "Provided KeyName is not registered with nova", [.listKeypairs])

/-- Responses the Nova client gives during one `_ipaddress` fetch: the
outcome of `servers.get(self.resource_id)` (error = NotFound). -/
structure GetAttEnv where
  getServer : Except Unit NovaServer

/-- Python truthiness of `x or '0.0.0.0'` applied to the nullable ipaddress
field: None and the empty string are falsy and give the default. -/
def pyOrDefaultIp : Option String → String
  | none => "0.0.0.0"
  | some s => if s = "" then "0.0.0.0" else s

/-- `Instance._ipaddress`: when no address is cached, fetch the server
(NotFound only logs a warning and leaves the cache empty) and record its
first address via `_set_ipaddress`, whose IndexError propagates; return the
cached address or the 0.0.0.0 default.  The possibly updated state is
returned with the value. -/
def _ipaddress (inst : InstanceState) (env : GetAttEnv) :
    Except Unit (InstanceState × String) :=
  match inst.ipaddress with
  | some _ => .ok (inst, pyOrDefaultIp inst.ipaddress)
  | none =>
    match env.getServer with
    | .error _ => .ok (inst, pyOrDefaultIp inst.ipaddress)
    | .ok server =>
      match _set_ipaddress inst server.networks with
      | .error _ => .error ()
      | .ok inst2 => .ok (inst2, pyOrDefaultIp inst2.ipaddress)

/-- Exceptions `Instance.FnGetAtt` can propagate: the unknown-attribute
rejection `InvalidTemplateAttribute(resource=self.name, key=key)`, and the
IndexError escaping `_set_ipaddress`. -/
inductive AttrErr where
  | invalidTemplateAttribute (resource key : String)
  | indexError
deriving DecidableEq, Repr

/-- The attribute keys `Instance.FnGetAtt` dispatches on. -/
def instanceAttributeKeys : List String :=
  ["AvailabilityZone", "PublicIp", "PrivateIp", "PublicDnsName", "PrivateDnsName"]

/-- `Instance.FnGetAtt`: AvailabilityZone reads the property, the four
address attributes all read `_ipaddress`, and any other key raises
InvalidTemplateAttribute naming the resource and the key.  Returns the
possibly updated state with the attribute value. -/
def FnGetAtt (inst : InstanceState) (env : GetAttEnv) (key : String) :
    Except AttrErr (InstanceState × String) :=
  if key = "AvailabilityZone" then
    .ok (inst, inst.availabilityZone)
  else if key = "PublicIp" ∨ key = "PrivateIp" ∨
          key = "PublicDnsName" ∨ key = "PrivateDnsName" then
    match _ipaddress inst env with
    | .error _ => .error .indexError
    | .ok r => .ok r
  else
    .error (.invalidTemplateAttribute inst.name key)

/-- A value supplied under the "template" member of a stack request body:
either a JSON object (the `isinstance(template_data, dict)` case, returned
as-is) or some other payload that falls through to `format_parse`. -/
inductive ReqVal where
  | dict (t : Snippet)
  | raw (s : String)
deriving DecidableEq, Repr

/-- The request body of a stack create/update/validate call, reduced to the
two members the template accessor consults; `none` means the key is absent
from the body dict. -/
structure StackReq where
  template : Option ReqVal
  template_url : Option String
deriving DecidableEq, Repr

/-- Errors the API layer raises for a bad template submission
(`webob.exc.HTTPBadRequest` with its reason string). -/
inductive HTTPError where
  | badRequest (msg : String)
deriving DecidableEq, Repr

/-- External collaborators of the stacks API, out of the core scope:
`urlfetch.get` (error = the IOError it raised) and
`template_format.parse` (none = the ValueError it raised). -/
structure WebEnv where
  fetch : String → Except String String
  parse : String → Option Snippet

/-- `InstantiationData.format_parse`: parse the payload, turning a ValueError
into HTTPBadRequest naming the data type. -/
def format_parse (env : WebEnv) (data : String) (data_type : String) :
    Except HTTPError Snippet :=
  match env.parse data with
  | some t => .ok t
  | none => .error (.badRequest (data_type ++ " not in valid format"))

/-- `InstantiationData.template`: an inline "template" member is returned
directly when it is a dict and otherwise parsed; only when "template" is
absent is "template_url" consulted (fetch errors become HTTPBadRequest);
with neither member the request is rejected with "No template specified". -/
def InstantiationData.template (env : WebEnv) (d : StackReq) :
    Except HTTPError Snippet :=
  match d.template with
  | some (.dict template_data) => .ok template_data
  | some (.raw template_data) => format_parse env template_data "Template"
  | none =>
    match d.template_url with
    | some url =>
      match env.fetch url with
      | .error ex => .error (.badRequest ("Could not retrieve template: " ++ ex))
      | .ok template_data => format_parse env template_data "Template"
    | none => .error (.badRequest "No template specified")

/-- The canonical address of a resource.  Modelled from the spec:
`heat.common.identifier.ResourceIdentifier` is not among the given sources;
spec 3 defines an identity as (tenant, stack_name, stack_id, resource_name). -/
structure ResourceIdentifier where
  tenant : String
  stack_name : String
  stack_id : String
  resource_name : String
deriving DecidableEq, Repr

/-- The canonical address of a stack: an identity without the resource
component. -/
structure StackIdentifier where
  tenant : String
  stack_name : String
  stack_id : String
deriving DecidableEq, Repr

/-- Modelled from the spec: `ResourceIdentifier.stack()` - `stack_of`
strips the resource_name component, yielding the owning stack identity. -/
def ResourceIdentifier.stack (r : ResourceIdentifier) : StackIdentifier :=
  { tenant := r.tenant, stack_name := r.stack_name, stack_id := r.stack_id }

/-- An identity a link can point at: a resource or a stack. -/
inductive ApiIdentity where
  | res (r : ResourceIdentifier)
  | stk (s : StackIdentifier)
deriving DecidableEq, Repr

/-- A hypermedia link as `util.make_link` builds it. -/
structure Link where
  href : ApiIdentity
  rel : String
deriving DecidableEq, Repr

/-- Modelled from the spec: `util.make_link(req, identity, relationship)` in
`heat/api/openstack/v1/util.py` is not among the given sources; it renders
the identity as an URL under the request host and pairs it with the
relationship label (default "self"). -/
def make_link (identity : ApiIdentity) (relationship : String) : Link :=
  { href := identity, rel := relationship }

/-- Values a formatted resource record can carry: engine strings and JSON
data, the resource identity dict under RES_ID, and the link list the
formatter emits. -/
inductive RVal where
  | str (s : String)
  | jval (v : JVal)
  | ident (r : ResourceIdentifier)
  | links (ls : List Link)
deriving DecidableEq, Repr

/-- Modelled from the spec: the engine API key for the resource identity
(`heat/rpc/api.py` is not among the given sources; the exact strings are
opaque tags and only their distinctness matters). -/
def RES_ID : String := "resource_identity"

/-- Modelled from the spec: the engine API key for the owning stack id. -/
def RES_STACK_ID : String := "stack_id"

/-- Modelled from the spec: the engine API key for the owning stack name. -/
def RES_STACK_NAME : String := "stack_name"

/-- Modelled from the spec: the engine API key for the resource metadata. -/
def RES_METADATA : String := "metadata"

/-- The `include_key` predicate of `format_resource`: an empty key filter
admits every key, a non-empty one admits only its members. -/
def include_key (keys : List String) (k : String) : Bool :=
  if keys.isEmpty then true else keys.contains k

/-- The `transform` generator of `format_resource` applied to one (key,
value) item: filtered keys yield nothing; RES_ID yields the "links" pair
holding the resource link and the owning-stack link (a malformed identity
value would make `ResourceIdentifier(**value)` raise, modelled as an error);
the stack name, stack id and metadata keys yield nothing; every other pair
passes through. -/
def transformResource (keys : List String) (key : String) (value : RVal) :
    Except Unit (List (String × RVal)) :=
    if include_key keys key = false then .ok []
    else if key = RES_ID then
      match value with
      | .ident identity =>
        .ok [("links", .links [make_link (.res identity) "self",
                               make_link (.stk identity.stack) "stack"])]
      | _ => .error ()
    else if key = RES_STACK_NAME ∨ key = RES_STACK_ID then .ok []
    else if key = RES_METADATA then .ok []
    else .ok [(key, value)]

/-- `itertools.chain.from_iterable(transform(k, v) for k, v in res.items())`:
concatenate the transformed items in order, propagating any error. -/
def format_resource_items (keys : List String) :
    List (String × RVal) → Except Unit (List (String × RVal))
  | [] => .ok []
  | (k, v) :: rest =>
    match transformResource keys k v with
    | .error e => .error e
    | .ok part =>
      match format_resource_items keys rest with
      | .error e => .error e
      | .ok tail => .ok (part ++ tail)

/-- `format_resource(req, res, keys)`: the formatted view as the association
list Python turns into a dict. -/
def format_resource (keys : List String) (record : List (String × RVal)) :
    Except Unit (List (String × RVal)) :=
  format_resource_items keys record

/-- A resource of a stack as `Restarter._find_resource` inspects it: its
name and its nullable provider id. -/
structure StackResource where
  name : String
  resource_id : Option String
deriving DecidableEq, Repr

/-- `Restarter._find_resource`: the first resource of the stack whose
`resource_id` equals the requested instance id, or none.  A resource whose
provider id is unset never matches a string id (None == s is false). -/
def _find_resource (stack : List StackResource) (instanceId : String) :
    Option StackResource :=
  stack.find? (fun r => r.resource_id = some instanceId)

/-- `Restarter.alarm`: look up the victim by the InstanceId property; when
none is found only log and return, otherwise restart it.  The result is the
name passed to `stack.restart_resource`, none when no restart happens. -/
def alarm (stack : List StackResource) (instanceId : String) : Option String :=
  match _find_resource stack instanceId with
  | none => none
  | some victim => some victim.name

lemma set_ipaddress_keeps_resource_id (inst inst2 : InstanceState)
    (networks : List (String × List String))
    (h : _set_ipaddress inst networks = .ok inst2) :
    inst2.resource_id = inst.resource_id := by
  unfold _set_ipaddress at h
  cases networks with
  | nil =>
    simp only [Except.ok.injEq] at h
    rw [← h]
  | cons p rest =>
    obtain ⟨n, addrs⟩ := p
    cases addrs with
    | nil => simp at h
    | cons ip rest2 =>
      simp only [Except.ok.injEq] at h
      rw [← h]

/-- C10: when no resource in the Restarter stack has a provider id equal to
the configured InstanceId, `Restarter.alarm` returns without restarting any
resource. -/
theorem c10_alarm_ignores_unknown_instance (stack : List StackResource)
    (instanceId : String)
    (h : ∀ r ∈ stack, r.resource_id ≠ some instanceId) :
    alarm stack instanceId = none := by
  unfold alarm _find_resource
  rw [List.find?_eq_none.mpr]
  intro x hx
  simpa using h x hx

/-- C10 witness: a stack holding one unset and two foreign provider ids
triggers no restart for the stale id. -/
theorem c10_witness :
    alarm [{ name := "web", resource_id := none },
           { name := "db", resource_id := some "srv-1" },
           { name := "cache", resource_id := some "srv-2" }] "srv-gone" = none :=
  c10_alarm_ignores_unknown_instance _ _ (by decide)

lemma handle_delete_clears_resource_id (inst : InstanceState) (env : DeleteEnv) :
    (handle_delete inst env).1.resource_id = none ∨
    (handle_delete inst env).1 = inst ∧ inst.resource_id = none := by
  unfold handle_delete
  cases h : inst.resource_id with
  | none => exact Or.inr ⟨rfl, rfl⟩
  | some rid =>
    cases env.getResult with
    | error e => exact Or.inl rfl
    | ok u => exact Or.inl rfl

/-- C5: delete on a resource whose provider id is unset is a no-op that makes
no provider call and leaves the resource unchanged, and a second delete after
any delete (which leaves the provider id cleared) is likewise a no-op. -/
theorem c5_delete_unset_noop_idempotent (inst : InstanceState)
    (env env2 : DeleteEnv) :
    (inst.resource_id = none → handle_delete inst env = (inst, [])) ∧
    handle_delete (handle_delete inst env).1 env2 = ((handle_delete inst env).1, []) := by
  have noop : ∀ s : InstanceState, s.resource_id = none →
      ∀ e : DeleteEnv, handle_delete s e = (s, []) := by
    intro s hs e
    unfold handle_delete
    rw [hs]
  refine ⟨fun h => noop inst h env, ?_⟩
  rcases handle_delete_clears_resource_id inst env with h | ⟨h1, h2⟩
  · exact noop _ h env2
  · rw [h1]
    exact noop _ h2 env2

/-- C5 witness: deleting an instance with no provider id changes nothing and
calls Nova not at all, twice in a row. -/
theorem c5_witness :
    handle_delete
      { name := "web", t := [], metadata := .obj .nil, resource_id := none,
        ipaddress := none, availabilityZone := "nova", keyName := "k",
        imageId := "img", instanceType := "m1" }
      { getResult := .ok (), pollsWhilePresent := 3 } =
    ({ name := "web", t := [], metadata := .obj .nil, resource_id := none,
       ipaddress := none, availabilityZone := "nova", keyName := "k",
       imageId := "img", instanceType := "m1" }, []) :=
  (c5_delete_unset_noop_idempotent _ _ { getResult := .ok (), pollsWhilePresent := 3 }).1 rfl

/-- C6: delete on a resource whose provider id is set always clears the id;
a NotFound answer to the initial lookup is treated as already deleted with no
deletion requested, and otherwise one deletion is requested followed by
polling gets until the server is absent. -/
theorem c6_delete_set_clears_id (inst : InstanceState) (env : DeleteEnv)
    (rid : String) (h : inst.resource_id = some rid) :
    (handle_delete inst env).1.resource_id = none ∧
    (env.getResult = .error () → (handle_delete inst env).2 = [.getServer rid]) ∧
    (env.getResult = .ok () →
      (handle_delete inst env).2 =
        .getServer rid :: .deleteServer rid :: poll_delete rid env.pollsWhilePresent) := by
  unfold handle_delete
  rw [h]
  cases hg : env.getResult with
  | error e => exact ⟨rfl, fun _ => rfl, fun hc => nomatch hc⟩
  | ok u => exact ⟨rfl, fun hc => by simp at hc, fun _ => rfl⟩

/-- C6 witness: with the server found and two polls still seeing it, delete
issues get, delete, then three gets, and clears the provider id. -/
theorem c6_witness :
    (handle_delete
      { name := "web", t := [], metadata := .obj .nil, resource_id := some "srv-7",
        ipaddress := none, availabilityZone := "nova", keyName := "k",
        imageId := "img", instanceType := "m1" }
      { getResult := .ok (), pollsWhilePresent := 2 }).1.resource_id = none ∧
    (handle_delete
      { name := "web", t := [], metadata := .obj .nil, resource_id := some "srv-7",
        ipaddress := none, availabilityZone := "nova", keyName := "k",
        imageId := "img", instanceType := "m1" }
      { getResult := .ok (), pollsWhilePresent := 2 }).2 =
      [.getServer "srv-7", .deleteServer "srv-7", .getServer "srv-7",
       .getServer "srv-7", .getServer "srv-7"] := by
  have h := c6_delete_set_clears_id
    { name := "web", t := [], metadata := .obj .nil, resource_id := some "srv-7",
      ipaddress := none, availabilityZone := "nova", keyName := "k",
      imageId := "img", instanceType := "m1" }
    { getResult := .ok (), pollsWhilePresent := 2 } "srv-7" rfl
  exact ⟨h.1, by rw [h.2.2 rfl]; rfl⟩

/-- C3: whenever the keypair, image and flavor checks pass and
`servers.create` returns a server, the server id is recorded as the resource
id before `handle_create` returns - on the success path and on both
exception paths after creation (unexpected status, address IndexError)
alike, so a later delete can reclaim the object. -/
theorem c3_provider_id_recorded (inst : InstanceState) (env : CreateEnv)
    (server : NovaServer)
    (hkey : env.keypairs.contains inst.keyName = true)
    (himg : (lastMatch env.images inst.imageId).isSome = true)
    (hflv : (lastMatch env.flavors inst.instanceType).isSome = true)
    (hc : env.createResult = .ok server) :
    (handle_create inst env).1.resource_id = some server.id := by
  obtain ⟨imgId, himg2⟩ := Option.isSome_iff_exists.mp himg
  obtain ⟨flvId, hflv2⟩ := Option.isSome_iff_exists.mp hflv
  unfold handle_create
  rw [hkey, himg2, hflv2, hc]
  simp only [not_true, if_false, ite_false, Bool.true_eq_false, not_false_iff]
  split
  · split
    · rename_i inst2 hset
      rw [set_ipaddress_keeps_resource_id _ _ _ hset]
    · rfl
  · rfl

/-- C3 witness: Nova returns a server that then reports status ERROR; the
creation fails but the server id is recorded on the resource. -/
theorem c3_witness :
    (handle_create
      { name := "web", t := [], metadata := .obj .nil, resource_id := none,
        ipaddress := none, availabilityZone := "nova", keyName := "mykey",
        imageId := "F17", instanceType := "m1.small" }
      { keypairs := ["mykey"], images := [("F17", "img-1")],
        flavors := [("m1.small", "flv-1")],
        createResult := .ok { id := "srv-9", finalStatus := "ERROR",
                              networks := [] } }).1.resource_id = some "srv-9" :=
  c3_provider_id_recorded _ _
    { id := "srv-9", finalStatus := "ERROR", networks := [] }
    (by decide) (by decide) (by decide) rfl

/-- C7: schema validation comes first and its error is returned with no Nova
call at all; when it passes and the named keypair is absent from the
registered list, a fixed non-empty error is returned; and in every case the
only Nova call `validate` can make is the read-only keypair listing. -/
theorem c7_validate_schema_first_then_keypair (superResult : Option String)
    (keyNameAccess : Except Unit String) (keypairs : List String) :
    (∀ e, superResult = some e →
      validate superResult keyNameAccess keypairs = (some e, [])) ∧
    (∀ key_name, superResult = none → keyNameAccess = .ok key_name →
      keypairs.contains key_name = false →
      validate superResult keyNameAccess keypairs =
        (some "Provided KeyName is not registered with nova", [.listKeypairs]) ∧
      "Provided KeyName is not registered with nova" ≠ "") ∧
    (∀ c ∈ (validate superResult keyNameAccess keypairs).2, c = .listKeypairs) := by
  refine ⟨?_, ?_, ?_⟩
  · intro e he
    unfold validate
    rw [he]
  · intro key_name hs hk hkp
    constructor
    · have hkp2 : key_name ∉ keypairs := by simpa using hkp
      simp [validate, hs, hk, hkp2]
    · decide
  · intro c hc
    unfold validate at hc
    cases superResult with
    | some e => simp at hc
    | none =>
      cases keyNameAccess with
      | error u => simp at hc
      | ok key_name =>
        by_cases hkp : key_name ∈ keypairs
        · simp [hkp] at hc
          exact hc
        · simp [hkp] at hc
          exact hc

/-- C7 witness: a schema error is returned untouched with no Nova call, and
with the schema passing an unregistered keypair yields the fixed error after
only the keypair listing. -/
theorem c7_witness :
    validate (some "Property error: KeyName Required") (.ok "mykey") ["otherkey"] =
      (some "Property error: KeyName Required", []) ∧
    validate none (.ok "mykey") ["otherkey"] =
      (some "Provided KeyName is not registered with nova", [.listKeypairs]) :=
  ⟨(c7_validate_schema_first_then_keypair _ _ _).1 _ rfl,
   ((c7_validate_schema_first_then_keypair none (.ok "mykey") ["otherkey"]).2.1
      "mykey" rfl rfl (by decide)).1⟩

/-- C2 counterexample: an update whose old and new definitions are identical
has an empty changed-key set, yet `handle_update` reports UPDATE_REPLACE -
its initial status, never overwritten by the empty loop - instead of a
no-op, contradicting the claim that an empty difference yields NO_OP with no
replace reported. -/
theorem c2_counterexample :
    changedKeys
      [("Metadata", JVal.num 1), ("ImageId", JVal.str "F17")]
      [("Metadata", JVal.num 1), ("ImageId", JVal.str "F17")] = [] ∧
    handle_update
      { name := "web", t := [("Metadata", .num 1), ("ImageId", .str "F17")],
        metadata := .num 1, resource_id := some "srv-1", ipaddress := none,
        availabilityZone := "nova", keyName := "k", imageId := "F17",
        instanceType := "m1" }
      [("Metadata", .num 1), ("ImageId", .str "F17")] =
    ({ name := "web", t := [("Metadata", .num 1), ("ImageId", .str "F17")],
       metadata := .num 1, resource_id := some "srv-1", ipaddress := none,
       availabilityZone := "nova", keyName := "k", imageId := "F17",
       instanceType := "m1" }, .UPDATE_REPLACE) := by
  constructor
  · decide
  · decide

/-- C2 as amended: an update whose changed-key set between the old and the
new definition is empty returns UPDATE_REPLACE - the initial status of the
`handle_update` loop - with the resource state unchanged; no in-place write
happens, but a replace is reported rather than a no-op. -/
theorem c2_empty_diff_reports_replace (inst : InstanceState) (json_snippet : Snippet)
    (h : changedKeys inst.t json_snippet = []) :
    handle_update inst json_snippet = (inst, .UPDATE_REPLACE) := by
  unfold handle_update update_template_diff
  rw [h]
  simp [handle_update_loop]

/-- C2 witness: a concrete identical-snippet update reports UPDATE_REPLACE
and leaves the state alone. -/
theorem c2_witness :
    handle_update
      { name := "api", t := [("ImageId", .str "F17")], metadata := .obj .nil,
        resource_id := none, ipaddress := none, availabilityZone := "nova",
        keyName := "k", imageId := "F17", instanceType := "m1" }
      [("ImageId", .str "F17")] =
    ({ name := "api", t := [("ImageId", .str "F17")], metadata := .obj .nil,
       resource_id := none, ipaddress := none, availabilityZone := "nova",
       keyName := "k", imageId := "F17", instanceType := "m1" },
     .UPDATE_REPLACE) :=
  c2_empty_diff_reports_replace _ _ (by decide)

/-- C4: the Instance update-allowed key set is exactly Metadata; an update
whose changed-key set is exactly the Metadata key stores the new metadata
and returns UPDATE_COMPLETE, while any update whose changed-key set holds
some other key returns UPDATE_REPLACE. -/
theorem c4_metadata_in_place_other_keys_replace (inst : InstanceState)
    (json_snippet : Snippet) :
    update_allowed_keys = ["Metadata"] ∧
    (changedKeys inst.t json_snippet = ["Metadata"] →
      handle_update inst json_snippet =
        ({ inst with metadata := (lookupKey json_snippet "Metadata").getD (.obj .nil) },
         .UPDATE_COMPLETE)) ∧
    (∀ k, k ∈ changedKeys inst.t json_snippet → k ≠ "Metadata" →
      (handle_update inst json_snippet).2 = .UPDATE_REPLACE) := by
  refine ⟨rfl, ?_, ?_⟩
  · intro h
    unfold handle_update update_template_diff
    rw [h]
    simp [handle_update_loop, update_allowed_keys]
  · intro k hk hkm
    unfold handle_update update_template_diff
    have hall : (changedKeys inst.t json_snippet).all
        (fun k2 => update_allowed_keys.contains k2) = false := by
      rw [Bool.eq_false_iff]
      intro hall
      have := List.all_eq_true.mp hall k hk
      simp [update_allowed_keys] at this
      exact hkm this
    rw [hall]
    rfl

/-- C4 witness: the two resolver examples of the spec - a pure Metadata
change is applied in place with the new metadata stored, and an ImageId
change is a replace. -/
theorem c4_witness :
    handle_update
      { name := "web", t := [("Metadata", .obj (.cons "a" (.num 1) .nil))],
        metadata := .obj (.cons "a" (.num 1) .nil), resource_id := some "srv-1",
        ipaddress := none, availabilityZone := "nova", keyName := "k",
        imageId := "F17", instanceType := "m1" }
      [("Metadata", .obj (.cons "a" (.num 2) .nil))] =
    ({ name := "web", t := [("Metadata", .obj (.cons "a" (.num 1) .nil))],
       metadata := .obj (.cons "a" (.num 2) .nil), resource_id := some "srv-1",
       ipaddress := none, availabilityZone := "nova", keyName := "k",
       imageId := "F17", instanceType := "m1" }, .UPDATE_COMPLETE) ∧
    (handle_update
      { name := "web", t := [("ImageId", .str "i1")], metadata := .obj .nil,
        resource_id := some "srv-1", ipaddress := none,
        availabilityZone := "nova", keyName := "k", imageId := "i1",
        instanceType := "m1" }
      [("ImageId", .str "i2")]).2 = .UPDATE_REPLACE := by
  constructor
  · have h := (c4_metadata_in_place_other_keys_replace
      { name := "web", t := [("Metadata", .obj (.cons "a" (.num 1) .nil))],
        metadata := .obj (.cons "a" (.num 1) .nil), resource_id := some "srv-1",
        ipaddress := none, availabilityZone := "nova", keyName := "k",
        imageId := "F17", instanceType := "m1" }
      [("Metadata", .obj (.cons "a" (.num 2) .nil))]).2.1 (by decide)
    exact h.trans (by decide)
  · exact (c4_metadata_in_place_other_keys_replace
      { name := "web", t := [("ImageId", .str "i1")], metadata := .obj .nil,
        resource_id := some "srv-1", ipaddress := none,
        availabilityZone := "nova", keyName := "k", imageId := "i1",
        instanceType := "m1" }
      [("ImageId", .str "i2")]).2.2 "ImageId" (by decide) (by decide)

/-- A web environment for exercising `InstantiationData.template` on inputs
whose inline template is a dict: neither the fetcher nor the parser is ever
consulted on that path, so both may answer arbitrarily. -/
def idleWebEnv : WebEnv :=
  { fetch := fun _ => .error "unreachable", parse := fun _ => none }

/-- C1 counterexample: a request body carrying BOTH an inline dict template
and a template_url is not rejected - the accessor returns the inline
template, ignoring the URL - contradicting the claim that a request with
both members present yields a bad-request error. -/
theorem c1_counterexample :
    (StackReq.template { template := some (.dict [("Resources", .obj .nil)]),
                         template_url := some "http://example.test/t.json" }).isSome = true ∧
    (StackReq.template_url { template := some (.dict [("Resources", .obj .nil)]),
                             template_url := some "http://example.test/t.json" }).isSome = true ∧
    InstantiationData.template idleWebEnv
      { template := some (.dict [("Resources", .obj .nil)]),
        template_url := some "http://example.test/t.json" } =
      .ok [("Resources", .obj .nil)] :=
  ⟨rfl, rfl, rfl⟩

/-- C1 as amended: the template accessor rejects with a bad-request error
only when neither the inline template member nor the template_url member is
supplied; when both are present the inline member takes precedence and the
URL is ignored - the result is the same as if template_url were absent. -/
theorem c1_inline_template_takes_precedence (env : WebEnv) (d : StackReq) :
    (d.template = none → d.template_url = none →
      InstantiationData.template env d = .error (.badRequest "No template specified")) ∧
    (∀ v, d.template = some v →
      InstantiationData.template env d =
        InstantiationData.template env { d with template_url := none }) := by
  constructor
  · intro h1 h2
    unfold InstantiationData.template
    rw [h1, h2]
  · intro v h
    unfold InstantiationData.template
    rw [h]
    cases v <;> rfl

/-- C1 witness: the empty request is rejected with the bad-request error, and
a request with both members agrees with its URL-free counterpart. -/
theorem c1_witness :
    InstantiationData.template idleWebEnv { template := none, template_url := none } =
      .error (.badRequest "No template specified") ∧
    InstantiationData.template idleWebEnv
      { template := some (.dict [("Resources", .obj (.cons "R" (.num 1) .nil))]),
        template_url := some "http://example.test/u" } =
    InstantiationData.template idleWebEnv
      { template := some (.dict [("Resources", .obj (.cons "R" (.num 1) .nil))]),
        template_url := none } :=
  ⟨(c1_inline_template_takes_precedence idleWebEnv
      { template := none, template_url := none }).1 rfl rfl,
   (c1_inline_template_takes_precedence idleWebEnv
      { template := some (.dict [("Resources", .obj (.cons "R" (.num 1) .nil))]),
        template_url := some "http://example.test/u" }).2
      (.dict [("Resources", .obj (.cons "R" (.num 1) .nil))]) rfl⟩

/-- C8 counterexample: PublicIp is a declared attribute key, yet with no
cached address and a Nova answer whose first network carries an empty
address list, `FnGetAtt` raises (the IndexError of `networks[n][0]` inside
`_set_ipaddress`), contradicting the claim that every declared key returns a
value without raising. -/
theorem c8_counterexample :
    "PublicIp" ∈ instanceAttributeKeys ∧
    FnGetAtt
      { name := "web", t := [], metadata := .obj .nil, resource_id := some "srv-1",
        ipaddress := none, availabilityZone := "nova", keyName := "k",
        imageId := "F17", instanceType := "m1" }
      { getServer := .ok { id := "srv-1", finalStatus := "ACTIVE",
                           networks := [("private", [])] } }
      "PublicIp" = .error .indexError :=
  ⟨by decide, rfl⟩

/-- The fetched server either is absent, has no networks, or has at least
one address on its first network - the conditions under which
`_set_ipaddress` cannot raise. -/
def firstNetworkAddrsOk (env : GetAttEnv) : Prop :=
  match env.getServer with
  | .error _ => True
  | .ok server =>
    match server.networks with
    | [] => True
    | (_, addrs) :: _ => addrs ≠ []

/-- C8 as amended: every key outside the declared attribute set fails with
the unknown-attribute error naming the resource and the key; every declared
key returns a value without raising provided an address is cached or the
first network of the fetched server is absent, empty, or non-degenerate -
the sole exception being the IndexError of the counterexample. -/
theorem c8_unknown_attribute_rejected (inst : InstanceState) (env : GetAttEnv)
    (key : String) :
    (key ∉ instanceAttributeKeys →
      FnGetAtt inst env key = .error (.invalidTemplateAttribute inst.name key)) ∧
    (key ∈ instanceAttributeKeys →
      inst.ipaddress.isSome = true ∨ firstNetworkAddrsOk env →
      ∃ inst2 v, FnGetAtt inst env key = .ok (inst2, v)) := by
  constructor
  · intro hk
    simp only [instanceAttributeKeys, List.mem_cons, List.not_mem_nil, or_false,
      not_or] at hk
    obtain ⟨h1, h2, h3, h4, h5⟩ := hk
    unfold FnGetAtt
    rw [if_neg h1, if_neg]
    intro hor
    rcases hor with h | h | h | h
    · exact h2 h
    · exact h3 h
    · exact h4 h
    · exact h5 h
  · intro hk hip
    have hipaddr : ∀ s : InstanceState,
        s.ipaddress.isSome = true ∨ firstNetworkAddrsOk env →
        ∃ s2 v, _ipaddress s env = .ok (s2, v) := by
      intro s hs
      unfold _ipaddress
      cases hcache : s.ipaddress with
      | some ip => exact ⟨s, pyOrDefaultIp (some ip), rfl⟩
      | none =>
        have hnet : firstNetworkAddrsOk env := by
          rcases hs with h | h
          · rw [hcache] at h
            cases h
          · exact h
        unfold firstNetworkAddrsOk at hnet
        cases hg : env.getServer with
        | error e => exact ⟨s, pyOrDefaultIp none, rfl⟩
        | ok server =>
          simp only [hg] at hnet
          cases hn : server.networks with
          | nil =>
            refine ⟨s, pyOrDefaultIp s.ipaddress, ?_⟩
            simp [_set_ipaddress, hn, hcache]
          | cons p rest =>
            obtain ⟨nm, addrs⟩ := p
            simp only [hn] at hnet
            cases ha : addrs with
            | nil => simp only [ha] at hnet; exact absurd rfl hnet
            | cons ip rest2 =>
              refine ⟨{ s with ipaddress := some ip }, pyOrDefaultIp (some ip), ?_⟩
              simp [_set_ipaddress, hn, ha]
    simp only [instanceAttributeKeys, List.mem_cons, List.not_mem_nil, or_false] at hk
    unfold FnGetAtt
    rcases hk with h | h | h | h | h
    · rw [if_pos h]
      exact ⟨inst, inst.availabilityZone, rfl⟩
    all_goals
      rw [if_neg (by rw [h]; decide), if_pos (by rw [h]; tauto)]
      obtain ⟨s2, v, hv⟩ := hipaddr inst hip
      rw [hv]
      exact ⟨s2, v, rfl⟩

/-- C8 witness: an undeclared key is rejected naming the resource and key,
and the declared PublicIp key returns a value when an address is cached. -/
theorem c8_witness :
    FnGetAtt
      { name := "web", t := [], metadata := .obj .nil, resource_id := some "srv-1",
        ipaddress := some "10.0.0.5", availabilityZone := "nova", keyName := "k",
        imageId := "F17", instanceType := "m1" }
      { getServer := .error () } "Color" =
      .error (.invalidTemplateAttribute "web" "Color") ∧
    ∃ inst2 v, FnGetAtt
      { name := "web", t := [], metadata := .obj .nil, resource_id := some "srv-1",
        ipaddress := some "10.0.0.5", availabilityZone := "nova", keyName := "k",
        imageId := "F17", instanceType := "m1" }
      { getServer := .error () } "PublicIp" = .ok (inst2, v) :=
  ⟨(c8_unknown_attribute_rejected
      { name := "web", t := [], metadata := .obj .nil, resource_id := some "srv-1",
        ipaddress := some "10.0.0.5", availabilityZone := "nova", keyName := "k",
        imageId := "F17", instanceType := "m1" }
      { getServer := .error () } "Color").1 (by decide),
   (c8_unknown_attribute_rejected
      { name := "web", t := [], metadata := .obj .nil, resource_id := some "srv-1",
        ipaddress := some "10.0.0.5", availabilityZone := "nova", keyName := "k",
        imageId := "F17", instanceType := "m1" }
      { getServer := .error () } "PublicIp").2 (by decide) (Or.inl rfl)⟩

lemma transformResource_mem (keys : List String) (key : String) (value : RVal)
    (part : List (String × RVal))
    (h : transformResource keys key value = .ok part) :
    ∀ p ∈ part, p.1 = "links" ∨
      (p = (key, value) ∧ key ≠ RES_ID ∧ key ≠ RES_STACK_NAME ∧
       key ≠ RES_STACK_ID ∧ key ≠ RES_METADATA) := by
  unfold transformResource at h
  split_ifs at h with h1 h2 h3 h4
  · simp only [Except.ok.injEq] at h
    intro p hp
    rw [← h] at hp
    cases hp
  · cases value with
    | ident r =>
      simp only [Except.ok.injEq] at h
      intro p hp
      rw [← h] at hp
      rcases List.mem_singleton.mp hp with heq
      rw [heq]
      exact Or.inl rfl
    | str s => simp at h
    | jval v => simp at h
    | links ls => simp at h
  · simp only [Except.ok.injEq] at h
    intro p hp
    rw [← h] at hp
    cases hp
  · simp only [Except.ok.injEq] at h
    intro p hp
    rw [← h] at hp
    cases hp
  · simp only [Except.ok.injEq] at h
    intro p hp
    rw [← h] at hp
    rcases List.mem_singleton.mp hp with heq
    rw [heq]
    rw [not_or] at h3
    exact Or.inr ⟨rfl, h2, h3.1, h3.2, h4⟩

lemma format_items_links_mem (rid : ResourceIdentifier) :
    ∀ (record out : List (String × RVal)),
      (RES_ID, RVal.ident rid) ∈ record →
      format_resource_items [] record = .ok out →
      ("links", RVal.links [make_link (.res rid) "self",
                            make_link (.stk rid.stack) "stack"]) ∈ out := by
  intro record
  induction record with
  | nil => intro out hmem; cases hmem
  | cons kv rest ih =>
    intro out hmem hok
    obtain ⟨k, v⟩ := kv
    unfold format_resource_items at hok
    cases hpart : transformResource [] k v with
    | error e => simp [hpart] at hok
    | ok part =>
      cases ht : format_resource_items [] rest with
      | error e => simp [hpart, ht] at hok
      | ok tail =>
        simp only [hpart, ht, Except.ok.injEq] at hok
        rw [← hok]
        rcases List.mem_cons.mp hmem with heq | hmem2
        · obtain ⟨hk, hv⟩ := Prod.mk.injEq .. ▸ heq
          rw [← hk, ← hv] at hpart
          have : part = [("links", RVal.links [make_link (.res rid) "self",
                                               make_link (.stk rid.stack) "stack"])] := by
            simp [transformResource, include_key] at hpart
            rw [← hpart]
          rw [this]
          exact List.mem_append_left _ (List.mem_singleton.mpr rfl)
        · exact List.mem_append_right _ (ih tail hmem2 ht)

lemma format_items_no_stack_keys :
    ∀ (record out : List (String × RVal)),
      format_resource_items [] record = .ok out →
      ∀ p ∈ out, p.1 ≠ RES_STACK_NAME ∧ p.1 ≠ RES_STACK_ID ∧ p.1 ≠ RES_METADATA := by
  intro record
  induction record with
  | nil =>
    intro out hok p hp
    unfold format_resource_items at hok
    simp only [Except.ok.injEq] at hok
    rw [← hok] at hp
    cases hp
  | cons kv rest ih =>
    intro out hok p hp
    obtain ⟨k, v⟩ := kv
    unfold format_resource_items at hok
    cases hpart : transformResource [] k v with
    | error e => simp [hpart] at hok
    | ok part =>
      cases ht : format_resource_items [] rest with
      | error e => simp [hpart, ht] at hok
      | ok tail =>
        simp only [hpart, ht, Except.ok.injEq] at hok
        rw [← hok] at hp
        rcases List.mem_append.mp hp with h | h
        · rcases transformResource_mem [] k v part hpart p h with h1 | ⟨h1, _, h2, h3, h4⟩
          · rw [h1]
            exact ⟨by decide, by decide, by decide⟩
          · rw [h1]
            exact ⟨h2, h3, h4⟩
        · exact ih tail ht p h

/-- C9: a resource record carrying the engine identity key formats to a view
holding a "links" entry with the resource link and the owning-stack link
obtained by stripping the resource component, and the view never carries the
raw stack-name, stack-id or metadata entries. -/
theorem c9_resource_view_links_no_stack_data (record out : List (String × RVal))
    (rid : ResourceIdentifier)
    (hmem : (RES_ID, RVal.ident rid) ∈ record)
    (hok : format_resource [] record = .ok out) :
    ("links", RVal.links [make_link (.res rid) "self",
                          make_link (.stk rid.stack) "stack"]) ∈ out ∧
    (∀ v, (RES_STACK_NAME, v) ∉ out) ∧
    (∀ v, (RES_STACK_ID, v) ∉ out) ∧
    (∀ v, (RES_METADATA, v) ∉ out) := by
  have h1 := format_items_links_mem rid record out hmem hok
  have h2 := format_items_no_stack_keys record out hok
  refine ⟨h1, fun v hv => ?_, fun v hv => ?_, fun v hv => ?_⟩
  · exact (h2 _ hv).1 rfl
  · exact (h2 _ hv).2.1 rfl
  · exact (h2 _ hv).2.2 rfl

/-- C9 witness: a concrete engine record formats to its own link plus the
owning-stack link, with the stack-name, stack-id and metadata entries
dropped. -/
theorem c9_witness :
    ("links", RVal.links
      [make_link (.res { tenant := "t1", stack_name := "wordpress",
                         stack_id := "sid-1", resource_name := "server" }) "self",
       make_link (.stk { tenant := "t1", stack_name := "wordpress",
                         stack_id := "sid-1" }) "stack"]) ∈
      [("links", RVal.links
        [make_link (.res { tenant := "t1", stack_name := "wordpress",
                           stack_id := "sid-1", resource_name := "server" }) "self",
         make_link (.stk { tenant := "t1", stack_name := "wordpress",
                           stack_id := "sid-1" }) "stack"]),
       ("resource_name", RVal.str "server"),
       ("resource_type", RVal.str "AWS::EC2::Instance")] ∧
    (∀ v, (RES_STACK_NAME, v) ∉
      [("links", RVal.links
        [make_link (.res { tenant := "t1", stack_name := "wordpress",
                           stack_id := "sid-1", resource_name := "server" }) "self",
         make_link (.stk { tenant := "t1", stack_name := "wordpress",
                           stack_id := "sid-1" }) "stack"]),
       ("resource_name", RVal.str "server"),
       ("resource_type", RVal.str "AWS::EC2::Instance")]) ∧
    (∀ v, (RES_STACK_ID, v) ∉
      [("links", RVal.links
        [make_link (.res { tenant := "t1", stack_name := "wordpress",
                           stack_id := "sid-1", resource_name := "server" }) "self",
         make_link (.stk { tenant := "t1", stack_name := "wordpress",
                           stack_id := "sid-1" }) "stack"]),
       ("resource_name", RVal.str "server"),
       ("resource_type", RVal.str "AWS::EC2::Instance")]) ∧
    (∀ v, (RES_METADATA, v) ∉
      [("links", RVal.links
        [make_link (.res { tenant := "t1", stack_name := "wordpress",
                           stack_id := "sid-1", resource_name := "server" }) "self",
         make_link (.stk { tenant := "t1", stack_name := "wordpress",
                           stack_id := "sid-1" }) "stack"]),
       ("resource_name", RVal.str "server"),
       ("resource_type", RVal.str "AWS::EC2::Instance")]) :=
  c9_resource_view_links_no_stack_data
    [(RES_ID, RVal.ident { tenant := "t1", stack_name := "wordpress",
                           stack_id := "sid-1", resource_name := "server" }),
     ("resource_name", RVal.str "server"),
     (RES_STACK_NAME, RVal.str "wordpress"),
     (RES_STACK_ID, RVal.str "sid-1"),
     (RES_METADATA, RVal.jval (.obj .nil)),
     ("resource_type", RVal.str "AWS::EC2::Instance")]
    _ _ (by decide) rfl
